import Mathlib

set_option autoImplicit false

/-! Verification development for the squirrels-sift emissions estimator.

The repository contains two copies of the analyzer module (they differ only
in the default contributions table, 15 versus 14 percent for dataCenter) and
an orchestration layer that fans out npm lookups and folds the settled
outcomes into per-item results.

JavaScript numbers are modelled as exact rationals extended with the three
non-finite values NaN, Infinity and -Infinity.  The arithmetic operations
follow the ECMAScript rules for the non-finite values and are exact rational
arithmetic on finite values (the binary rounding of IEEE doubles is
idealised away; negative zero is identified with zero).  Math.round rounds
half towards positive infinity, i.e. floor of x + 1/2. -/

/-- A JavaScript number: an exact rational, or NaN, Infinity, -Infinity. -/
inductive JsNum where
  | nan : JsNum
  | inf : JsNum
  | ninf : JsNum
  | fin (q : ℚ) : JsNum
  deriving DecidableEq

namespace JsNum

/-- JavaScript addition on the extended numbers. -/
def add : JsNum → JsNum → JsNum
  | nan, _ => nan
  | _, nan => nan
  | inf, ninf => nan
  | ninf, inf => nan
  | inf, _ => inf
  | _, inf => inf
  | ninf, _ => ninf
  | _, ninf => ninf
  | fin a, fin b => fin (a + b)

/-- JavaScript multiplication on the extended numbers. -/
def mul : JsNum → JsNum → JsNum
  | nan, _ => nan
  | _, nan => nan
  | inf, inf => inf
  | inf, ninf => ninf
  | ninf, inf => ninf
  | ninf, ninf => inf
  | inf, fin q => if q = 0 then nan else if q < 0 then ninf else inf
  | fin q, inf => if q = 0 then nan else if q < 0 then ninf else inf
  | ninf, fin q => if q = 0 then nan else if q < 0 then inf else ninf
  | fin q, ninf => if q = 0 then nan else if q < 0 then inf else ninf
  | fin a, fin b => fin (a * b)

/-- JavaScript division on the extended numbers. -/
def div : JsNum → JsNum → JsNum
  | nan, _ => nan
  | _, nan => nan
  | inf, inf => nan
  | inf, ninf => nan
  | ninf, inf => nan
  | ninf, ninf => nan
  | inf, fin q => if q < 0 then ninf else inf
  | ninf, fin q => if q < 0 then inf else ninf
  | fin _, inf => fin 0
  | fin _, ninf => fin 0
  | fin a, fin b =>
      if b = 0 then (if a = 0 then nan else if a < 0 then ninf else inf)
      else fin (a / b)

/-- Math.round: round half towards positive infinity; NaN and the infinities
are returned unchanged. -/
def round : JsNum → JsNum
  | nan => nan
  | inf => inf
  | ninf => ninf
  | fin q => fin (Int.floor (q + 1 / 2))

/-- Whether the value is strictly negative (NaN is not negative). -/
def isNeg : JsNum → Bool
  | ninf => true
  | fin q => decide (q < 0)
  | _ => false

end JsNum

/-- Number.EPSILON, the smallest representable floating-point increment used
by the rounding helpers, as an exact rational: 2 to the power minus 52. -/
def numberEPSILON : ℚ := 1 / 2 ^ 52

/-- Source to2fR: round to 2 decimal digits after adding Number.EPSILON
(the round2 of the spec).  Identical in both copies of the analyzer. -/
def to2fR (float : JsNum) : JsNum :=
  JsNum.div
    (JsNum.round (JsNum.mul (JsNum.add float (JsNum.fin numberEPSILON)) (JsNum.fin 100)))
    (JsNum.fin 100)

/-- Source to6fR: round to 6 decimal digits after adding Number.EPSILON
(the round6 of the spec).  Identical in both copies of the analyzer. -/
def to6fR (float : JsNum) : JsNum :=
  JsNum.div
    (JsNum.round (JsNum.mul (JsNum.add float (JsNum.fin numberEPSILON)) (JsNum.fin 1000000)))
    (JsNum.fin 1000000)

/-- A JavaScript object with number-valued properties, in insertion order. -/
abbrev Table := List (String × JsNum)

/-- JavaScript property read tbl[k]: the stored value, or none for a missing
property (undefined). -/
def objGetOpt (tbl : Table) (k : String) : Option JsNum :=
  (tbl.find? (fun p => p.1 == k)).map (fun p => p.2)

/-- Division whose dividend may be undefined: undefined / x is NaN in
JavaScript, since undefined coerces to NaN. -/
def divUndef : Option JsNum → JsNum → JsNum
  | none, _ => JsNum.nan
  | some a, b => JsNum.div a b

/-- Source KWH_PER_GB = 0.81, the fixed energy-per-gigabyte constant.
Identical in both copies of the analyzer. -/
def KWH_PER_GB : ℚ := 81 / 100

/-- Source _gridIntensities (identical in both copies of the analyzer). -/
def _gridIntensities : Table :=
  [("dataCenter", JsNum.fin 50),
   ("network", JsNum.fin (43726 / 100)),
   ("device", JsNum.fin (43726 / 100)),
   ("production", JsNum.fin (43726 / 100))]

/-- The accumulation loop inside calculateCO2Emissions, factored out: for
each part of gridIntensities, in insertion order, add
intensity * (contributions[part] / 100) to an accumulator starting at 0. -/
def totalCo2PerGb (gridIntensities contributions : Table) : JsNum :=
  gridIntensities.foldl
    (fun acc p =>
      JsNum.add acc (JsNum.mul p.2 (divUndef (objGetOpt contributions p.1) (JsNum.fin 100))))
    (JsNum.fin 0)

/-- Result record of calculateCO2Emissions. -/
structure EmissionsEstimate where
  totalCo2EmissionsWeekKg : JsNum
  consumedkWh : JsNum
  deriving DecidableEq

/-- Result record of emissionPerWeek. -/
structure WeeklyReport where
  consumedkWh : JsNum
  kg : JsNum
  t : JsNum
  deriving DecidableEq

/-- Source calculateCO2Emissions.  The body is identical in both copies of
the analyzer; the copies differ only in the default value of the
contributions parameter, so the two tables are explicit arguments here and
each copy of the caller supplies its own default below. -/
def calculateCO2Emissions (sizeKb downloads : JsNum)
    (gridIntensities contributions : Table) : EmissionsEstimate :=
  let sizeGb := JsNum.div sizeKb (JsNum.fin 1000000)
  let tot := totalCo2PerGb gridIntensities contributions
  let co2EmissionsPerDownloadG := JsNum.mul sizeGb tot
  let totalCo2EmissionsWeekG := JsNum.mul co2EmissionsPerDownloadG downloads
  let totalCo2EmissionsWeekKg := JsNum.div totalCo2EmissionsWeekG (JsNum.fin 1000)
  { totalCo2EmissionsWeekKg := totalCo2EmissionsWeekKg,
    consumedkWh := JsNum.mul sizeGb (JsNum.fin KWH_PER_GB) }

namespace AnalyzerV1

/-- Source _contributions of the first analyzer copy: dataCenter at 15
percent (this table sums to 101). -/
def _contributions : Table :=
  [("dataCenter", JsNum.fin 15),
   ("network", JsNum.fin 14),
   ("device", JsNum.fin 53),
   ("production", JsNum.fin 19)]

/-- calculateCO2Emissions with both table parameters at the defaults of the
first analyzer copy. -/
def calculateCO2EmissionsD (sizeKb downloads : JsNum) : EmissionsEstimate :=
  calculateCO2Emissions sizeKb downloads _gridIntensities _contributions

/-- Source emissionPerWeek of the first analyzer copy. -/
def emissionPerWeek (sizeKb downloadsLastWeek : JsNum) : WeeklyReport :=
  let emissions := calculateCO2EmissionsD sizeKb downloadsLastWeek
  { consumedkWh := to6fR (JsNum.mul emissions.consumedkWh downloadsLastWeek),
    kg := to6fR emissions.totalCo2EmissionsWeekKg,
    t := to2fR (JsNum.div emissions.totalCo2EmissionsWeekKg (JsNum.fin 1000)) }

end AnalyzerV1

namespace AnalyzerV2

/-- Source _contributions of the second analyzer copy: dataCenter at 14
percent (this table sums to 100). -/
def _contributions : Table :=
  [("dataCenter", JsNum.fin 14),
   ("network", JsNum.fin 14),
   ("device", JsNum.fin 53),
   ("production", JsNum.fin 19)]

/-- calculateCO2Emissions with both table parameters at the defaults of the
second analyzer copy. -/
def calculateCO2EmissionsD (sizeKb downloads : JsNum) : EmissionsEstimate :=
  calculateCO2Emissions sizeKb downloads _gridIntensities _contributions

/-- Source emissionPerWeek of the second analyzer copy. -/
def emissionPerWeek (sizeKb downloadsLastWeek : JsNum) : WeeklyReport :=
  let emissions := calculateCO2EmissionsD sizeKb downloadsLastWeek
  { consumedkWh := to6fR (JsNum.mul emissions.consumedkWh downloadsLastWeek),
    kg := to6fR emissions.totalCo2EmissionsWeekKg,
    t := to2fR (JsNum.div emissions.totalCo2EmissionsWeekKg (JsNum.fin 1000)) }

end AnalyzerV2

/-! Model of the orchestration layer in src/index.js.  The two network
lookups of npmPackagesHandler (the download-stat lookup and the size fetch)
are external collaborators; their settled outcomes (the all-settled
combinator produces one fulfilled-or-rejected outcome per lookup and never
rejects the batch) are inputs to the model, one pair per listing.  Joining
the per-listing results is a map that preserves the input order. -/

/-- Body of the download-stat response, stat.body.downloads. -/
structure StatBody where
  downloads : ℚ
  deriving DecidableEq

/-- A fulfilled download-stat lookup result. -/
structure Stat where
  body : StatBody
  deriving DecidableEq

/-- A fulfilled package-size lookup result: details.size, in bytes. -/
structure PackageDetails where
  size : ℚ
  deriving DecidableEq

/-- An input listing: a package name with an optional version. -/
structure NpmListing where
  name : String
  version : Option String
  deriving DecidableEq

/-- A settled outcome: fulfilled with a value or rejected with a reason. -/
abbrev Settled (α : Type) := Except String α

/-- One per-item result record of npmPackagesHandler.  Absent fields and
null fields are both modelled as none. -/
structure ItemResult where
  name : String
  version : String
  stat : Option Stat
  details : Option PackageDetails
  error : Option String
  emissionsPerWeek : Option WeeklyReport
  deriving DecidableEq

/-- The continuation npmPackagesHandler runs on the settled outcomes of one
listing: it builds a record from name and version, then either assigns the
stat value or sets stat to null and error to the stat reason, then either
assigns the details value together with emissionsPerWeek or sets details to
null and error to the details reason; a second error assignment overwrites
the first.  When stat is null, the optional chain on it yields undefined,
which enters emissionPerWeek as NaN.  The analyzer is taken to be the second
copy of the module. -/
def processSettled (name version : String) (ignoreDownloads : Bool)
    (statResult : Settled Stat) (detailsResult : Settled PackageDetails) : ItemResult :=
  let result : ItemResult :=
    { name := name, version := version, stat := none, details := none,
      error := none, emissionsPerWeek := none }
  let result :=
    match statResult with
    | Except.ok v => { result with stat := some v }
    | Except.error r => { result with stat := none, error := some r }
  match detailsResult with
  | Except.ok v =>
      { result with
        details := some v,
        emissionsPerWeek := some (AnalyzerV2.emissionPerWeek
          (JsNum.fin (v.size / 1000))
          (if ignoreDownloads then JsNum.fin 1
           else
             match result.stat with
             | some s => JsNum.fin s.body.downloads
             | none => JsNum.nan)) }
  | Except.error r => { result with details := none, error := some r }

/-- Source npmPackagesHandler, with the settled outcome pair of each listing
supplied as input and a missing version defaulting to latest.  The timespan
parameter of the source only feeds the stat lookup, which is already part of
the settled input here. -/
def npmPackagesHandler
    (items : List (NpmListing × Settled Stat × Settled PackageDetails))
    (ignoreDownloads : Bool) : List ItemResult :=
  items.map (fun it =>
    processSettled it.1.name (it.1.version.getD "latest") ignoreDownloads it.2.1 it.2.2)

/-- Modelled from the spec invariant wording: the sum of the contribution
percentages of a table (the tables themselves come from the source). -/
def sumContributions (tbl : Table) : JsNum :=
  tbl.foldl (fun acc p => JsNum.add acc p.2) (JsNum.fin 0)

/-! Helper lemmas for evaluating the extended arithmetic. -/

namespace JsNum

@[simp] theorem add_fin_fin (a b : ℚ) : add (fin a) (fin b) = fin (a + b) := rfl

@[simp] theorem mul_fin_fin (a b : ℚ) : mul (fin a) (fin b) = fin (a * b) := rfl

theorem div_fin_fin (a b : ℚ) (hb : b ≠ 0) : div (fin a) (fin b) = fin (a / b) := by
  simp [div, hb]

@[simp] theorem round_fin (q : ℚ) : round (fin q) = fin (Int.floor (q + 1 / 2)) := rfl

@[simp] theorem mul_nan_left (x : JsNum) : mul nan x = nan := by cases x <;> rfl

@[simp] theorem mul_nan_right (x : JsNum) : mul x nan = nan := by cases x <;> rfl

@[simp] theorem add_nan_left (x : JsNum) : add nan x = nan := by cases x <;> rfl

@[simp] theorem add_nan_right (x : JsNum) : add x nan = nan := by cases x <;> rfl

@[simp] theorem div_nan_left (x : JsNum) : div nan x = nan := by cases x <;> rfl

@[simp] theorem div_nan_right (x : JsNum) : div x nan = nan := by cases x <;> rfl

end JsNum

/-- Evaluation of the integer floor at a concrete rational. -/
theorem floorQ_eq (x : ℚ) (n : ℤ) (h1 : (n : ℚ) ≤ x) (h2 : x < n + 1) :
    Int.floor x = n :=
  Int.floor_eq_iff.mpr ⟨h1, h2⟩

/-- Evaluation of to6fR on a finite value. -/
theorem to6fR_fin (q : ℚ) :
    to6fR (JsNum.fin q)
      = JsNum.fin ((Int.floor ((q + numberEPSILON) * 1000000 + 1 / 2) : ℚ) / 1000000) := by
  norm_num [to6fR, JsNum.div]

/-- Evaluation of to2fR on a finite value. -/
theorem to2fR_fin (q : ℚ) :
    to2fR (JsNum.fin q)
      = JsNum.fin ((Int.floor ((q + numberEPSILON) * 100 + 1 / 2) : ℚ) / 100) := by
  norm_num [to2fR, JsNum.div]

theorem objGet_v1_dataCenter :
    objGetOpt AnalyzerV1._contributions ("dataCenter") = some (JsNum.fin 15) := rfl

theorem objGet_v1_network :
    objGetOpt AnalyzerV1._contributions ("network") = some (JsNum.fin 14) := rfl

theorem objGet_v1_device :
    objGetOpt AnalyzerV1._contributions ("device") = some (JsNum.fin 53) := rfl

theorem objGet_v1_production :
    objGetOpt AnalyzerV1._contributions ("production") = some (JsNum.fin 19) := rfl

theorem objGet_v2_dataCenter :
    objGetOpt AnalyzerV2._contributions ("dataCenter") = some (JsNum.fin 14) := rfl

theorem objGet_v2_network :
    objGetOpt AnalyzerV2._contributions ("network") = some (JsNum.fin 14) := rfl

theorem objGet_v2_device :
    objGetOpt AnalyzerV2._contributions ("device") = some (JsNum.fin 53) := rfl

theorem objGet_v2_production :
    objGetOpt AnalyzerV2._contributions ("production") = some (JsNum.fin 19) := rfl

/-- The blended figure for the first analyzer copy defaults: 383.5436. -/
theorem totalCo2PerGb_v1 :
    totalCo2PerGb _gridIntensities AnalyzerV1._contributions = JsNum.fin (958859 / 2500) := by
  norm_num [totalCo2PerGb, _gridIntensities, objGet_v1_dataCenter, objGet_v1_network,
    objGet_v1_device, objGet_v1_production, divUndef, JsNum.div]

/-- The blended figure for the second analyzer copy defaults: 383.0436. -/
theorem totalCo2PerGb_v2 :
    totalCo2PerGb _gridIntensities AnalyzerV2._contributions = JsNum.fin (957609 / 2500) := by
  norm_num [totalCo2PerGb, _gridIntensities, objGet_v2_dataCenter, objGet_v2_network,
    objGet_v2_device, objGet_v2_production, divUndef, JsNum.div]

/-- Evaluation of calculateCO2Emissions on finite inputs when the blended
figure is finite. -/
theorem calculateCO2Emissions_fin (s d tq : ℚ) (gi c : Table)
    (h : totalCo2PerGb gi c = JsNum.fin tq) :
    calculateCO2Emissions (JsNum.fin s) (JsNum.fin d) gi c
      = { totalCo2EmissionsWeekKg := JsNum.fin (s / 1000000 * tq * d / 1000),
          consumedkWh := JsNum.fin (s / 1000000 * KWH_PER_GB) } := by
  norm_num [calculateCO2Emissions, h, JsNum.div]

theorem to6fR_eval_81 : to6fR (JsNum.fin 81) = JsNum.fin 81 := by
  rw [to6fR_fin,
    floorQ_eq (((81 : ℚ) + numberEPSILON) * 1000000 + 1 / 2) 81000000
      (by norm_num [numberEPSILON]) (by norm_num [numberEPSILON])]
  norm_num

theorem to6fR_eval_kgV1 :
    to6fR (JsNum.fin (958859 / 25000)) = JsNum.fin (958859 / 25000) := by
  rw [to6fR_fin,
    floorQ_eq ((((958859 : ℚ) / 25000) + numberEPSILON) * 1000000 + 1 / 2) 38354360
      (by norm_num [numberEPSILON]) (by norm_num [numberEPSILON])]
  norm_num

theorem to2fR_eval_tV1 :
    to2fR (JsNum.fin (958859 / 25000000)) = JsNum.fin (1 / 25) := by
  rw [to2fR_fin,
    floorQ_eq ((((958859 : ℚ) / 25000000) + numberEPSILON) * 100 + 1 / 2) 4
      (by norm_num [numberEPSILON]) (by norm_num [numberEPSILON])]
  norm_num

/-- Record evaluation of the first copy weekly report at the concrete
scenario of the spec. -/
theorem emissionPerWeek_v1_scenario :
    AnalyzerV1.emissionPerWeek (JsNum.fin 100000) (JsNum.fin 1000)
      = { consumedkWh := JsNum.fin 81, kg := JsNum.fin (958859 / 25000),
          t := JsNum.fin (1 / 25) } := by
  unfold AnalyzerV1.emissionPerWeek AnalyzerV1.calculateCO2EmissionsD
  rw [calculateCO2Emissions_fin 100000 1000 (958859 / 2500) _ _ totalCo2PerGb_v1]
  norm_num [KWH_PER_GB, JsNum.div]
  exact ⟨to6fR_eval_81, to6fR_eval_kgV1, to2fR_eval_tV1⟩

/-- C1: For sizeKb = 100000 and downloadsLastWeek = 1000 with the default
tables of the 15 percent dataCenter variant, the estimator yields
sizeGb = 0.1, a blended totalCo2PerGb of 383.5436 (within 0.01 of the quoted
383.55), per-transfer emissions and weekly kilograms of 38.35436 (within
0.001 of the quoted 38.355), a weekly report t of exactly 0.04 tonnes,
per-transfer consumedkWh of exactly 0.081, and weekly energy of exactly
81 kWh. -/
theorem c1_concrete_scenario :
    JsNum.div (JsNum.fin 100000) (JsNum.fin 1000000) = JsNum.fin (1 / 10)
    ∧ (totalCo2PerGb _gridIntensities AnalyzerV1._contributions = JsNum.fin (958859 / 2500)
        ∧ |(958859 / 2500 : ℚ) - 38355 / 100| < 1 / 100)
    ∧ ((AnalyzerV1.calculateCO2EmissionsD (JsNum.fin 100000) (JsNum.fin 1000)).totalCo2EmissionsWeekKg
          = JsNum.fin (958859 / 25000)
        ∧ |(958859 / 25000 : ℚ) - 38355 / 1000| < 1 / 1000)
    ∧ (AnalyzerV1.calculateCO2EmissionsD (JsNum.fin 100000) (JsNum.fin 1000)).consumedkWh
        = JsNum.fin (81 / 1000)
    ∧ AnalyzerV1.emissionPerWeek (JsNum.fin 100000) (JsNum.fin 1000)
        = { consumedkWh := JsNum.fin 81, kg := JsNum.fin (958859 / 25000),
            t := JsNum.fin (1 / 25) } := by
  refine ⟨by norm_num [JsNum.div], ⟨totalCo2PerGb_v1, by rw [abs_lt]; constructor <;> norm_num⟩,
    ⟨?_, by rw [abs_lt]; constructor <;> norm_num⟩, ?_, emissionPerWeek_v1_scenario⟩
  · unfold AnalyzerV1.calculateCO2EmissionsD
    rw [calculateCO2Emissions_fin 100000 1000 (958859 / 2500) _ _ totalCo2PerGb_v1]
    norm_num
  · unfold AnalyzerV1.calculateCO2EmissionsD
    rw [calculateCO2Emissions_fin 100000 1000 (958859 / 2500) _ _ totalCo2PerGb_v1]
    norm_num [KWH_PER_GB]

/-- C2 counterexample: with downloadCount = 0 and sizeKb = 1000000, the
returned consumedkWh is 0.81, not 0, because consumedkWh is per transfer
and does not depend on the download count. -/
theorem c2_counterexample :
    (AnalyzerV2.calculateCO2EmissionsD (JsNum.fin 1000000) (JsNum.fin 0)).consumedkWh
      ≠ JsNum.fin 0 := by
  unfold AnalyzerV2.calculateCO2EmissionsD
  rw [calculateCO2Emissions_fin 1000000 0 (957609 / 2500) _ _ totalCo2PerGb_v2]
  norm_num [KWH_PER_GB]

/-- C2 amended: for every finite sizeKb, downloadCount = 0 gives zero weekly
emissions but leaves consumedkWh at the per-transfer value
sizeKb / 1000000 * 0.81, which is nonzero for nonzero sizeKb; sizeKb = 0
zeroes both fields for every finite download count. -/
theorem c2_zero_inputs :
    ∀ s d : ℚ,
      (AnalyzerV2.calculateCO2EmissionsD (JsNum.fin s) (JsNum.fin 0)).totalCo2EmissionsWeekKg
          = JsNum.fin 0
      ∧ (AnalyzerV2.calculateCO2EmissionsD (JsNum.fin s) (JsNum.fin 0)).consumedkWh
          = JsNum.fin (s / 1000000 * KWH_PER_GB)
      ∧ (AnalyzerV2.calculateCO2EmissionsD (JsNum.fin 0) (JsNum.fin d)).totalCo2EmissionsWeekKg
          = JsNum.fin 0
      ∧ (AnalyzerV2.calculateCO2EmissionsD (JsNum.fin 0) (JsNum.fin d)).consumedkWh
          = JsNum.fin 0 := by
  intro s d
  unfold AnalyzerV2.calculateCO2EmissionsD
  rw [calculateCO2Emissions_fin s 0 (957609 / 2500) _ _ totalCo2PerGb_v2,
    calculateCO2Emissions_fin 0 d (957609 / 2500) _ _ totalCo2PerGb_v2]
  norm_num

theorem epwV2_c3_kg :
    (AnalyzerV2.emissionPerWeek (JsNum.fin (12499998750000 / 957609)) (JsNum.fin 1)).kg
      = JsNum.fin 5 := by
  have h := calculateCO2Emissions_fin (12499998750000 / 957609) 1 (957609 / 2500)
    _gridIntensities AnalyzerV2._contributions totalCo2PerGb_v2
  simp only [AnalyzerV2.emissionPerWeek, AnalyzerV2.calculateCO2EmissionsD, h]
  rw [show ((12499998750000 : ℚ) / 957609 / 1000000 * (957609 / 2500) * 1 / 1000)
      = 9999999 / 2000000 by norm_num]
  rw [to6fR_fin,
    floorQ_eq ((((9999999 : ℚ) / 2000000) + numberEPSILON) * 1000000 + 1 / 2) 5000000
      (by norm_num [numberEPSILON]) (by norm_num [numberEPSILON])]
  norm_num

theorem epwV2_c3_t :
    (AnalyzerV2.emissionPerWeek (JsNum.fin (12499998750000 / 957609)) (JsNum.fin 1)).t
      = JsNum.fin 0 := by
  have h := calculateCO2Emissions_fin (12499998750000 / 957609) 1 (957609 / 2500)
    _gridIntensities AnalyzerV2._contributions totalCo2PerGb_v2
  simp only [AnalyzerV2.emissionPerWeek, AnalyzerV2.calculateCO2EmissionsD, h]
  rw [show ((12499998750000 : ℚ) / 957609 / 1000000 * (957609 / 2500) * 1 / 1000)
      = 9999999 / 2000000 by norm_num]
  rw [JsNum.div_fin_fin _ _ (by norm_num : (1000 : ℚ) ≠ 0)]
  rw [show ((9999999 : ℚ) / 2000000 / 1000) = 9999999 / 2000000000 by norm_num]
  rw [to2fR_fin,
    floorQ_eq ((((9999999 : ℚ) / 2000000000) + numberEPSILON) * 100 + 1 / 2) 0
      (by norm_num [numberEPSILON]) (by norm_num [numberEPSILON])]
  norm_num

/-- C3 counterexample: at sizeKb = 12499998750000 / 957609 and one download,
the weekly raw kilograms are exactly 4.9999995, so the reported kg field
rounds up to 5 while the reported t field rounds 0.0049999995 down to 0;
round2 applied to the rounded kg field divided by 1000 gives 0.01 instead. -/
theorem c3_counterexample :
    (AnalyzerV2.emissionPerWeek (JsNum.fin (12499998750000 / 957609)) (JsNum.fin 1)).t
      ≠ to2fR (JsNum.div
          (AnalyzerV2.emissionPerWeek (JsNum.fin (12499998750000 / 957609)) (JsNum.fin 1)).kg
          (JsNum.fin 1000)) := by
  rw [epwV2_c3_kg, epwV2_c3_t]
  rw [JsNum.div_fin_fin _ _ (by norm_num : (1000 : ℚ) ≠ 0)]
  rw [show ((5 : ℚ) / 1000) = 1 / 200 by norm_num]
  rw [to2fR_fin,
    floorQ_eq ((((1 : ℚ) / 200) + numberEPSILON) * 100 + 1 / 2) 1
      (by norm_num [numberEPSILON]) (by norm_num [numberEPSILON])]
  norm_num

/-- C3 amended: the t field of the weekly report is round2 of the raw,
un-rounded weekly kilograms divided by 1000; computing it from the already
rounded kg field can differ at rounding boundaries. -/
theorem c3_t_from_raw_kg :
    ∀ sizeKb downloads : JsNum,
      (AnalyzerV2.emissionPerWeek sizeKb downloads).t
        = to2fR (JsNum.div
            (AnalyzerV2.calculateCO2EmissionsD sizeKb downloads).totalCo2EmissionsWeekKg
            (JsNum.fin 1000)) := by
  intro sizeKb downloads
  rfl

/-- C4: linearity of the estimator on finite inputs with the default tables
of the second analyzer copy: doubling the download count doubles
totalCo2EmissionsWeekKg, and doubling the size doubles consumedkWh. -/
theorem c4_linearity :
    ∀ s n : ℚ,
      (AnalyzerV2.calculateCO2EmissionsD (JsNum.fin s) (JsNum.fin (2 * n))).totalCo2EmissionsWeekKg
          = JsNum.mul (JsNum.fin 2)
              ((AnalyzerV2.calculateCO2EmissionsD (JsNum.fin s) (JsNum.fin n)).totalCo2EmissionsWeekKg)
      ∧ (AnalyzerV2.calculateCO2EmissionsD (JsNum.fin (2 * s)) (JsNum.fin n)).consumedkWh
          = JsNum.mul (JsNum.fin 2)
              ((AnalyzerV2.calculateCO2EmissionsD (JsNum.fin s) (JsNum.fin n)).consumedkWh) := by
  intro s n
  unfold AnalyzerV2.calculateCO2EmissionsD
  rw [calculateCO2Emissions_fin s (2 * n) (957609 / 2500) _ _ totalCo2PerGb_v2,
    calculateCO2Emissions_fin s n (957609 / 2500) _ _ totalCo2PerGb_v2,
    calculateCO2Emissions_fin (2 * s) n (957609 / 2500) _ _ totalCo2PerGb_v2]
  constructor
  · simp only [JsNum.mul_fin_fin, JsNum.fin.injEq]
    ring
  · simp only [JsNum.mul_fin_fin, JsNum.fin.injEq]
    ring

/-- C7 counterexample: the first copy default contributions table does not
sum to 100 (it sums to 101, with dataCenter at 15 percent). -/
theorem c7_counterexample :
    sumContributions AnalyzerV1._contributions ≠ JsNum.fin 100 := by
  norm_num [sumContributions, AnalyzerV1._contributions, List.foldl]

/-- C7 amended: the second copy default contributions table sums to 100;
the first copy table sums to 101. -/
theorem c7_contribution_sums :
    sumContributions AnalyzerV2._contributions = JsNum.fin 100
    ∧ sumContributions AnalyzerV1._contributions = JsNum.fin 101 := by
  constructor <;> norm_num [sumContributions, AnalyzerV1._contributions,
    AnalyzerV2._contributions, List.foldl]

/-- C9: both rounding helpers are idempotent: a second application to an
already rounded value returns it unchanged. -/
theorem c9_rounding_idempotent :
    ∀ x : JsNum, to2fR (to2fR x) = to2fR x ∧ to6fR (to6fR x) = to6fR x := by
  intro x
  cases x with
  | nan =>
      constructor <;> rfl
  | inf =>
      constructor <;> norm_num [to2fR, to6fR, JsNum.add, JsNum.mul, JsNum.div, JsNum.round]
  | ninf =>
      constructor <;> norm_num [to2fR, to6fR, JsNum.add, JsNum.mul, JsNum.div, JsNum.round]
  | fin q =>
      constructor
      · rw [to2fR_fin, to2fR_fin]
        rw [show ((Int.floor ((q + numberEPSILON) * 100 + 1 / 2) : ℚ) / 100 + numberEPSILON) * 100
              + 1 / 2
            = (Int.floor ((q + numberEPSILON) * 100 + 1 / 2) : ℚ)
              + (numberEPSILON * 100 + 1 / 2) by ring]
        rw [Int.floor_int_add,
          show Int.floor (numberEPSILON * 100 + 1 / 2) = 0 from
            floorQ_eq _ 0 (by norm_num [numberEPSILON]) (by norm_num [numberEPSILON])]
        norm_num
      · rw [to6fR_fin, to6fR_fin]
        rw [show ((Int.floor ((q + numberEPSILON) * 1000000 + 1 / 2) : ℚ) / 1000000
                + numberEPSILON) * 1000000 + 1 / 2
            = (Int.floor ((q + numberEPSILON) * 1000000 + 1 / 2) : ℚ)
              + (numberEPSILON * 1000000 + 1 / 2) by ring]
        rw [Int.floor_int_add,
          show Int.floor (numberEPSILON * 1000000 + 1 / 2) = 0 from
            floorQ_eq _ 0 (by norm_num [numberEPSILON]) (by norm_num [numberEPSILON])]
        norm_num

/-- Keys of the gridIntensities table only ever read the contributions table
through objGetOpt, so pointwise equal lookups give equal folds. -/
theorem totalCo2PerGb_congr_aux (c c2 : Table) :
    ∀ (gi : Table) (acc : JsNum),
      (∀ p ∈ gi, objGetOpt c p.1 = objGetOpt c2 p.1) →
      gi.foldl (fun acc p =>
          JsNum.add acc (JsNum.mul p.2 (divUndef (objGetOpt c p.1) (JsNum.fin 100)))) acc
        = gi.foldl (fun acc p =>
            JsNum.add acc (JsNum.mul p.2 (divUndef (objGetOpt c2 p.1) (JsNum.fin 100)))) acc := by
  intro gi
  induction gi with
  | nil => intro acc h; rfl
  | cons p rest ih =>
      intro acc h
      simp only [List.foldl_cons]
      rw [h p (List.mem_cons_self p rest)]
      exact ih _ (fun p2 hp2 => h p2 (List.mem_cons_of_mem p hp2))

/-- Prepending an entry whose key is read by no gridIntensities key leaves
the lookup of every read key unchanged. -/
theorem objGetOpt_cons_ne (k k2 : String) (v : JsNum) (c : Table) (h : k ≠ k2) :
    objGetOpt ((k, v) :: c) k2 = objGetOpt c k2 := by
  simp only [objGetOpt, List.find?]
  rw [show (k == k2) = false from beq_eq_false_iff_ne.mpr h]

/-- Once the accumulator is NaN the fold stays NaN. -/
theorem totalCo2PerGb_nan_acc (c : Table) :
    ∀ gi : Table,
      gi.foldl (fun acc p =>
          JsNum.add acc (JsNum.mul p.2 (divUndef (objGetOpt c p.1) (JsNum.fin 100)))) JsNum.nan
        = JsNum.nan := by
  intro gi
  induction gi with
  | nil => rfl
  | cons p rest ih =>
      simp only [List.foldl_cons, JsNum.add_nan_left]
      exact ih

/-- A gridIntensities key missing from contributions poisons the whole fold
with NaN, whatever the accumulator was when it is reached. -/
theorem totalCo2PerGb_missing_aux (c : Table) :
    ∀ (gi : Table) (acc : JsNum),
      (∃ p ∈ gi, objGetOpt c p.1 = none) →
      gi.foldl (fun acc p =>
          JsNum.add acc (JsNum.mul p.2 (divUndef (objGetOpt c p.1) (JsNum.fin 100)))) acc
        = JsNum.nan := by
  intro gi
  induction gi with
  | nil =>
      intro acc h
      rcases h with ⟨p, hp, _⟩
      exact absurd hp (List.not_mem_nil p)
  | cons p rest ih =>
      intro acc h
      rcases h with ⟨p2, hp2, hnone⟩
      rcases List.mem_cons.mp hp2 with heq | hmem
      · subst heq
        simp only [List.foldl_cons, hnone, divUndef, JsNum.mul_nan_right, JsNum.add_nan_right]
        exact totalCo2PerGb_nan_acc c rest
      · exact ih _ ⟨p2, hmem, hnone⟩

/-- C5: the blended figure sums intensity times contribution share over
exactly the gridIntensities categories: single-category override tables give
exactly 100; an entry present only in contributions contributes nothing; a
gridIntensities category absent from contributions makes the fold NaN, and
the NaN flows through to the emissions result for every finite input. -/
theorem c5_blended_sum :
    totalCo2PerGb [("x", JsNum.fin 100)] [("x", JsNum.fin 100)] = JsNum.fin 100
    ∧ (∀ (gi c : Table) (k : String) (v : JsNum),
        (∀ p ∈ gi, p.1 ≠ k) →
        totalCo2PerGb gi ((k, v) :: c) = totalCo2PerGb gi c)
    ∧ (∀ gi c : Table, (∃ p ∈ gi, objGetOpt c p.1 = none) →
        totalCo2PerGb gi c = JsNum.nan)
    ∧ (∀ s d : ℚ,
        (calculateCO2Emissions (JsNum.fin s) (JsNum.fin d)
            [("x", JsNum.fin 100)] []).totalCo2EmissionsWeekKg = JsNum.nan) := by
  refine ⟨?_, ?_, ?_, ?_⟩
  · norm_num [totalCo2PerGb, List.foldl, objGetOpt, List.find?, divUndef, JsNum.div]
  · intro gi c k v h
    exact totalCo2PerGb_congr_aux ((k, v) :: c) c gi (JsNum.fin 0)
      (fun p hp => objGetOpt_cons_ne k p.1 v c (fun hk => h p hp hk.symm))
  · intro gi c h
    exact totalCo2PerGb_missing_aux c gi (JsNum.fin 0) h
  · intro s d
    have hmiss : totalCo2PerGb [("x", JsNum.fin 100)] [] = JsNum.nan :=
      totalCo2PerGb_missing_aux [] [("x", JsNum.fin 100)] (JsNum.fin 0)
        ⟨("x", JsNum.fin 100), List.mem_cons_self _ _, rfl⟩
    simp [calculateCO2Emissions, hmiss]

/-- Instantiation of the general parts of the C5 theorem at concrete tables:
an entry present only in contributions changes nothing, and a table missing
a read key yields NaN. -/
theorem c5_blended_sum_witness :
    totalCo2PerGb [("gi1", JsNum.fin 7)] (("extra", JsNum.fin 3) :: [("gi1", JsNum.fin 50)])
      = totalCo2PerGb [("gi1", JsNum.fin 7)] [("gi1", JsNum.fin 50)]
    ∧ totalCo2PerGb [("y", JsNum.fin 9)] [] = JsNum.nan := by
  constructor
  · exact c5_blended_sum.2.1 [("gi1", JsNum.fin 7)] [("gi1", JsNum.fin 50)] "extra" (JsNum.fin 3)
      (by intro p hp; rw [List.mem_singleton] at hp; subst hp; decide)
  · exact c5_blended_sum.2.2.1 [("y", JsNum.fin 9)] []
      ⟨("y", JsNum.fin 9), List.mem_cons_self _ _, rfl⟩

/-- C6: the estimator never fails and always returns the literal arithmetic
result: on finite inputs the two fields are the exact rational formulas; a
negative size with a positive download count yields strictly negative weekly
emissions; NaN and Infinity inputs flow through the arithmetic; the weekly
report on NaN inputs is the all-NaN record. -/
theorem c6_total_arithmetic :
    (∀ s d : ℚ,
      AnalyzerV2.calculateCO2EmissionsD (JsNum.fin s) (JsNum.fin d)
        = { totalCo2EmissionsWeekKg := JsNum.fin (s / 1000000 * (957609 / 2500) * d / 1000),
            consumedkWh := JsNum.fin (s / 1000000 * KWH_PER_GB) })
    ∧ (∀ s d : ℚ, s < 0 → 0 < d →
        ((AnalyzerV2.calculateCO2EmissionsD (JsNum.fin s)
            (JsNum.fin d)).totalCo2EmissionsWeekKg).isNeg = true)
    ∧ (AnalyzerV2.calculateCO2EmissionsD JsNum.nan (JsNum.fin 1)).totalCo2EmissionsWeekKg
        = JsNum.nan
    ∧ (AnalyzerV2.calculateCO2EmissionsD JsNum.inf (JsNum.fin 1)).totalCo2EmissionsWeekKg
        = JsNum.inf
    ∧ AnalyzerV2.emissionPerWeek JsNum.nan JsNum.nan
        = { consumedkWh := JsNum.nan, kg := JsNum.nan, t := JsNum.nan } := by
  refine ⟨?_, ?_, ?_, ?_, ?_⟩
  · intro s d
    unfold AnalyzerV2.calculateCO2EmissionsD
    exact calculateCO2Emissions_fin s d (957609 / 2500) _ _ totalCo2PerGb_v2
  · intro s d hs hd
    unfold AnalyzerV2.calculateCO2EmissionsD
    rw [calculateCO2Emissions_fin s d (957609 / 2500) _ _ totalCo2PerGb_v2]
    simp only [JsNum.isNeg, decide_eq_true_iff]
    have h1 : s / 1000000 * (957609 / 2500) < 0 :=
      mul_neg_of_neg_of_pos (div_neg_of_neg_of_pos hs (by norm_num)) (by norm_num)
    exact div_neg_of_neg_of_pos (mul_neg_of_neg_of_pos h1 hd) (by norm_num)
  · simp [AnalyzerV2.calculateCO2EmissionsD, calculateCO2Emissions, totalCo2PerGb_v2]
  · norm_num [AnalyzerV2.calculateCO2EmissionsD, calculateCO2Emissions, totalCo2PerGb_v2,
      JsNum.div, JsNum.mul]
  · simp [AnalyzerV2.emissionPerWeek, AnalyzerV2.calculateCO2EmissionsD, calculateCO2Emissions,
      totalCo2PerGb_v2, to6fR, to2fR, JsNum.round]

/-- Instantiation of the negative-size part of the C6 theorem: size -1 with
one download yields negative weekly emissions. -/
theorem c6_total_arithmetic_witness :
    ((-1 : ℚ) < 0 ∧ (0 : ℚ) < 1)
    ∧ ((AnalyzerV2.calculateCO2EmissionsD (JsNum.fin (-1))
        (JsNum.fin 1)).totalCo2EmissionsWeekKg).isNeg = true :=
  ⟨⟨by norm_num, by norm_num⟩,
    c6_total_arithmetic.2.1 (-1) 1 (by norm_num) (by norm_num)⟩

/-- C8: the batch handler returns one output item per input item, in input
order, each produced by the per-item continuation; a rejected stat lookup
sets stat to null and an error marker without aborting anything, and a
rejected details lookup sets details to null and records its reason as the
error marker. -/
theorem c8_batch_per_item :
    (∀ (items : List (NpmListing × Settled Stat × Settled PackageDetails)) (igD : Bool),
      (npmPackagesHandler items igD).length = items.length)
    ∧ (∀ (items : List (NpmListing × Settled Stat × Settled PackageDetails)) (igD : Bool)
        (i : ℕ) (h : i < items.length),
        (npmPackagesHandler items igD)[i]?
          = some (processSettled (items.get ⟨i, h⟩).1.name
              ((items.get ⟨i, h⟩).1.version.getD "latest") igD
              (items.get ⟨i, h⟩).2.1 (items.get ⟨i, h⟩).2.2))
    ∧ (∀ (nm v : String) (igD : Bool) (st : Settled Stat) (dt : Settled PackageDetails),
        (processSettled nm v igD st dt).name = nm ∧ (processSettled nm v igD st dt).version = v)
    ∧ (∀ (nm v : String) (igD : Bool) (r : String) (dt : Settled PackageDetails),
        (processSettled nm v igD (Except.error r) dt).stat = none
        ∧ ((processSettled nm v igD (Except.error r) dt).error).isSome = true)
    ∧ (∀ (nm v : String) (igD : Bool) (st : Settled Stat) (r : String),
        (processSettled nm v igD st (Except.error r)).details = none
        ∧ (processSettled nm v igD st (Except.error r)).error = some r) := by
  refine ⟨?_, ?_, ?_, ?_, ?_⟩
  · intro items igD
    simp [npmPackagesHandler]
  · intro items igD i h
    simp [npmPackagesHandler, List.getElem?_map, List.getElem?_eq_getElem h]
  · intro nm v igD st dt
    cases st <;> cases dt <;> exact ⟨rfl, rfl⟩
  · intro nm v igD r dt
    cases dt <;> exact ⟨rfl, rfl⟩
  · intro nm v igD st r
    cases st <;> exact ⟨rfl, rfl⟩

/-- Instantiation of the ordered-output part of the C8 theorem on a concrete
two-item batch whose first item has a rejected stat lookup. -/
theorem c8_batch_per_item_witness :
    (npmPackagesHandler
        [(⟨ "alpha", none⟩, Except.error "statboom", Except.ok ⟨1000⟩),
         (⟨ "beta", some "1.2.3"⟩, Except.ok ⟨⟨7⟩⟩, Except.error "sizeboom")] false)[1]?
      = some (processSettled "beta" "1.2.3" false (Except.ok ⟨⟨7⟩⟩) (Except.error "sizeboom")) := by
  have h := c8_batch_per_item.2.1
    [(⟨ "alpha", none⟩, Except.error "statboom", Except.ok ⟨1000⟩),
     (⟨ "beta", some "1.2.3"⟩, Except.ok ⟨⟨7⟩⟩, Except.error "sizeboom")] false 1 (by norm_num)
  simpa using h

/-- C10: when both lookups of an item are rejected, the returned record
carries the details reason as its only error field: the stat reason written
first is overwritten and lost. -/
theorem c10_error_overwrite :
    ∀ (nm v : String) (igD : Bool) (r1 r2 : String),
      (processSettled nm v igD (Except.error r1) (Except.error r2)).error = some r2
      ∧ (processSettled nm v igD (Except.error r1) (Except.error r2)).stat = none
      ∧ (processSettled nm v igD (Except.error r1) (Except.error r2)).details = none
      ∧ (r1 ≠ r2 →
          (processSettled nm v igD (Except.error r1) (Except.error r2)).error ≠ some r1) := by
  intro nm v igD r1 r2
  refine ⟨rfl, rfl, rfl, ?_⟩
  intro hne hcontra
  exact hne (Option.some.inj hcontra).symm

/-- Instantiation of the C10 theorem at distinct concrete reasons: the stat
reason is gone from the output. -/
theorem c10_error_overwrite_witness :
    (processSettled "demo" "latest" false (Except.error "statboom")
        (Except.error "sizeboom")).error = some "sizeboom"
    ∧ (processSettled "demo" "latest" false (Except.error "statboom")
        (Except.error "sizeboom")).error ≠ some "statboom" :=
  ⟨(c10_error_overwrite "demo" "latest" false "statboom" "sizeboom").1,
    (c10_error_overwrite "demo" "latest" false "statboom" "sizeboom").2.2.2 (by decide)⟩
